import Mathlib

/-!
Verification of the chart tile pipeline and serving engine of the
mapbox-s57 repository, as a shallow embedding in Lean 4.

The embedding follows the TypeScript sources:
  * the multi-chart tile server (`loadMBTilesDatabases`, `startTileServer`
    with its `/:chartName/:z/:x/:y.pbf` and legacy `/:z/:x/:y.pbf` routes);
  * the conversion orchestrator (`convertS57File`, `main` in the batch
    conversion script), including per-layer extraction, feature tagging,
    empty-layer pruning and cleanup;
  * source discovery (`fs.readdirSync` filtered on the `.000` suffix).

JavaScript semantics that matter are modelled explicitly:
  * `parseInt` parses an optional sign, an optional `0x` prefix and then the
    longest digit prefix, yielding NaN when no digit is found (`JSNum.nan`);
  * `1 << z` is a 32-bit shift: the shift count is `ToUint32(z) & 31` and the
    result is reinterpreted as a signed 32-bit integer;
  * subtraction propagates NaN.

The on-disk MBTiles archive is the externally defined container of the spec:
it is modelled as a finite map from non-negative `(zoom, column, row)` keys
to binary payloads, queried through `sql.js`; a query matches a stored key
only when the bound JavaScript values are integers equal to that key (NaN
never matches, mirroring SQLite treating NaN bindings as NULL).  A database
can pass the registry validation queries and still fail the tile query at
serve time (for example a `tiles` table without the queried columns); the
`faulty` flag models that storage-layer failure mode, which the handler maps
to a 500 response.
-/

/-- A JavaScript number as produced by `parseInt`: either NaN or an integer
(integral values in the relevant range are exact doubles). -/
inductive JSNum where
  | nan : JSNum
  | int : Int → JSNum
deriving DecidableEq, Repr

/-- Value of a character as a digit in the given radix (10 or 16), as used by
JavaScript `parseInt`. -/
def digitVal (radix : Nat) (c : Char) : Option Nat :=
  if 48 ≤ c.toNat ∧ c.toNat ≤ 57 ∧ c.toNat - 48 < radix then
    some (c.toNat - 48)
  else if radix = 16 ∧ 97 ≤ c.toNat ∧ c.toNat ≤ 102 then
    some (c.toNat - 87)
  else if radix = 16 ∧ 65 ≤ c.toNat ∧ c.toNat ≤ 70 then
    some (c.toNat - 55)
  else
    none

/-- Accumulate the longest digit prefix, stopping at the first non-digit. -/
def parseDigitsAux (radix : Nat) (acc : Nat) : List Char → Nat
  | [] => acc
  | c :: cs =>
    match digitVal radix c with
    | some v => parseDigitsAux radix (acc * radix + v) cs
    | none => acc

/-- JavaScript `parseInt(s)` with no explicit radix: skip whitespace, read an
optional sign, detect a `0x`/`0X` hex prefix, then read the longest digit
prefix; no digit at all yields NaN. -/
def parseIntJS (s : String) : JSNum :=
  let cs := s.data.dropWhile fun c =>
    c == ' ' || c == '\t' || c == '\n' || c == '\r'
  let signAndRest : Bool × List Char :=
    match cs with
    | '-' :: rest => (true, rest)
    | '+' :: rest => (false, rest)
    | _ => (false, cs)
  let radixAndRest : Nat × List Char :=
    match signAndRest.2 with
    | '0' :: 'x' :: rest => (16, rest)
    | '0' :: 'X' :: rest => (16, rest)
    | _ => (10, signAndRest.2)
  match radixAndRest.2 with
  | [] => JSNum.nan
  | c :: _ =>
    match digitVal radixAndRest.1 c with
    | none => JSNum.nan
    | some _ =>
      let v : Int := parseDigitsAux radixAndRest.1 0 radixAndRest.2
      JSNum.int (if signAndRest.1 then -v else v)

/-- JavaScript `ToUint32`: NaN becomes 0, integers are reduced mod `2^32`. -/
def jsToUint32 : JSNum → Nat
  | JSNum.nan => 0
  | JSNum.int i => (i % 4294967296).toNat

/-- Reinterpret a value in `[0, 2^32)` as a signed 32-bit integer. -/
def toInt32 (n : Nat) : Int :=
  if n < 2147483648 then (n : Int) else (n : Int) - 4294967296

/-- The value of the JavaScript expression `1 << z`: shift count is
`ToUint32(z) & 31`, the result is a signed 32-bit integer. -/
def shl1Val (z : JSNum) : Int :=
  toInt32 ((1 <<< (jsToUint32 z % 32)) % 4294967296)

/-- The JavaScript expression `1 << z` as a JS number (never NaN). -/
def jsShl1 (z : JSNum) : JSNum :=
  JSNum.int (shl1Val z)

/-- JavaScript subtraction on the numbers we track: NaN propagates. -/
def jsSub : JSNum → JSNum → JSNum
  | JSNum.int a, JSNum.int b => JSNum.int (a - b)
  | _, _ => JSNum.nan

/-- The row conversion of the tile server:
`const tmsY = (1 << z) - 1 - y;` (slippy row to archive/TMS row). -/
def tmsY (z y : JSNum) : JSNum :=
  jsSub (jsSub (jsShl1 z) (JSNum.int 1)) y

/-- A binary tile payload, as a byte list. -/
def Payload : Type := List Nat
deriving instance DecidableEq for Payload

/-- One loaded chart database of the registry (`MBTilesDatabase` in the
server source): its chart name and the tiles table of the underlying
archive, keyed by non-negative `(zoom_level, tile_column, tile_row)`.
`faulty` records whether the tile query itself throws at serve time, the
storage-layer failure the handler maps to a 500 response. -/
structure ChartDB where
  name : String
  tiles : List ((Nat × Nat × Nat) × Payload)
  faulty : Bool
deriving DecidableEq

/-- Whether a bound JavaScript value matches a stored non-negative integer
key: NaN never matches; an integer matches by equality. -/
def jsMatchesNat (v : JSNum) (k : Nat) : Bool :=
  match v with
  | JSNum.nan => false
  | JSNum.int i => i == (k : Int)

/-- The SQL query
`SELECT tile_data FROM tiles WHERE zoom_level = ? AND tile_column = ? AND tile_row = ?`
over the tiles table: first row whose key matches all three bound values. -/
def queryTiles (tiles : List ((Nat × Nat × Nat) × Payload))
    (z x r : JSNum) : Option Payload :=
  (tiles.find? fun e =>
    jsMatchesNat z e.1.1 && jsMatchesNat x e.1.2.1 && jsMatchesNat r e.1.2.2).map
    (fun e => e.2)

/-- `database.db.exec(...)` on the tiles table: throws when the database is
faulty at the storage layer, otherwise returns the query result. -/
def execTiles (d : ChartDB) (z x r : JSNum) : Except String (Option Payload) :=
  if d.faulty then Except.error "Database error"
  else Except.ok (queryTiles d.tiles z x r)

/-- Body of an HTTP response: either text or binary bytes. -/
inductive Body where
  | text : String → Body
  | bytes : Payload → Body
deriving DecidableEq

/-- An HTTP response as observed by the client: status, headers, body. -/
structure Response where
  status : Nat
  headers : List (String × String)
  body : Body
deriving DecidableEq

/-- The headers the server sets on a successful tile response. -/
def pbfHeaders : List (String × String) :=
  [("Content-Type", "application/x-protobuf"),
   ("Content-Encoding", "gzip"),
   ("Cache-Control", "public, max-age=86400")]

/-- `res.status(404).send("Chart '<name>' not found")`. -/
def chartNotFoundResp (chartName : String) : Response :=
  { status := 404, headers := [],
    body := Body.text ("Chart \x27" ++ chartName ++ "\x27 not found") }

/-- `res.status(404).send("Tile not found")`. -/
def tileNotFoundResp : Response :=
  { status := 404, headers := [], body := Body.text "Tile not found" }

/-- The 200 response carrying the tile payload with the protobuf headers. -/
def tileFoundResp (t : Payload) : Response :=
  { status := 200, headers := pbfHeaders, body := Body.bytes t }

/-- `res.status(500).send("Database error")`. -/
def storageErrorResp : Response :=
  { status := 500, headers := [], body := Body.text "Database error" }

/-- `res.status(404).send("No charts available")` on the legacy route when
the registry is empty. -/
def noChartsResp : Response :=
  { status := 404, headers := [], body := Body.text "No charts available" }

/-- The handler of the `/:chartName/:z/:x/:y.pbf` route: parse the three
coordinate parameters with `parseInt`, resolve the chart in the registry,
convert the slippy row with `tmsY`, query the archive, and respond. -/
def handleChartTile (dbs : List ChartDB)
    (chartName sz sx sy : String) : Response :=
  let z := parseIntJS sz
  let x := parseIntJS sx
  let y := parseIntJS sy
  match dbs.find? (fun d => d.name == chartName) with
  | none => chartNotFoundResp chartName
  | some d =>
    match execTiles d z x (tmsY z y) with
    | Except.ok (some t) => tileFoundResp t
    | Except.ok none => tileNotFoundResp
    | Except.error _ => storageErrorResp

/-- A tile request in one of the two supported address forms. -/
inductive TileRequest where
  | explicitReq (chartName sz sx sy : String) : TileRequest
  | legacyReq (sz sx sy : String) : TileRequest
deriving DecidableEq

/-- The request dispatch of `startTileServer`: the explicit route runs
`handleChartTile`; the legacy route answers 404 on an empty registry and
otherwise rewrites the request to the first registered chart and re-enters
the same tile handler (the code rewrites `req.url` and re-dispatches through
the router, which matches the explicit route). -/
def serve (dbs : List ChartDB) : TileRequest → Response
  | TileRequest.explicitReq chartName sz sx sy =>
      handleChartTile dbs chartName sz sx sy
  | TileRequest.legacyReq sz sx sy =>
    match dbs with
    | [] => noChartsResp
    | d :: _ => handleChartTile dbs d.name sz sx sy

/-- Whether `suffix` is a suffix of `s` (`String.prototype.endsWith`). -/
def hasSuffix (s suffix : String) : Bool :=
  suffix.data.isSuffixOf s.data

/-- One archive file found in the mbtiles directory, as the registry loader
sees it.  `opensAsDb` models whether `fs.readFile` plus the `SQL.Database`
constructor succeed; `hasMetadataTable` and `hasTilesTable` model whether the
two validation queries (`SELECT name, value FROM metadata` and
`SELECT COUNT(*) as count FROM tiles`) succeed; `queryFaulty` models a
database that passes validation but whose tile query throws at serve time. -/
structure ArchiveFile where
  fileName : String
  opensAsDb : Bool
  hasMetadataTable : Bool
  hasTilesTable : Bool
  metadata : List (String × String)
  tiles : List ((Nat × Nat × Nat) × Payload)
  queryFaulty : Bool
deriving DecidableEq

/-- `path.basename(file, ".mbtiles")`: the chart name is the file name with
the `.mbtiles` extension removed when present. -/
def chartNameOf (fileName : String) : String :=
  if hasSuffix fileName ".mbtiles" then
    String.mk (fileName.data.take (fileName.data.length - 8))
  else fileName

/-- Opening and validating one archive in `loadMBTilesDatabases`: a read or
constructor failure, or a failing validation query, surfaces as an error
(the thrown exception in the source); otherwise the chart database is built. -/
def openAndValidate (f : ArchiveFile) : Except String ChartDB :=
  if !f.opensAsDb then Except.error "load failed"
  else if !(f.hasMetadataTable && f.hasTilesTable) then
    Except.error "database format error"
  else
    Except.ok { name := chartNameOf f.fileName, tiles := f.tiles,
                faulty := f.queryFaulty }

/-- `loadMBTilesDatabases` over a present mbtiles directory: filter the
directory listing to `.mbtiles` files, then load each in order; a file whose
load or validation fails is logged and skipped (the surrounding try/catch
blocks), so the fold never propagates an error and the registry keeps the
remaining charts. -/
def loadMBTilesDatabases (dirFiles : List ArchiveFile) : List ChartDB :=
  (dirFiles.filter fun f => hasSuffix f.fileName ".mbtiles").foldl
    (fun acc f =>
      match openAndValidate f with
      | Except.ok d => acc ++ [d]
      | Except.error _ => acc) []

/-- `fs.readdirSync(dir)`: `none` models an absent directory, for which the
call throws ENOENT; otherwise the directory entries are returned. -/
def readdirSync (dir : Option (List String)) : Except String (List String) :=
  match dir with
  | none => Except.error "ENOENT"
  | some entries => Except.ok entries

/-- Source discovery of the conversion batch:
`fs.readdirSync(options.input).filter((file) => file.endsWith(".000"))`.
The `readdirSync` call is not wrapped in a try/catch, so its error
propagates. -/
def discoverSources (dir : Option (List String)) : Except String (List String) :=
  match readdirSync dir with
  | Except.error e => Except.error e
  | Except.ok entries => Except.ok (entries.filter fun f => hasSuffix f ".000")

/-- The discovery phase of `main`: an empty discovery result is reported and
the batch returns cleanly (`.ok none`); a non-empty result continues into
conversion (`.ok (some files)`); a thrown discovery error propagates and
crashes the run. -/
def mainDiscovery (dir : Option (List String)) :
    Except String (Option (List String)) :=
  match discoverSources dir with
  | Except.error e => Except.error e
  | Except.ok files => if files.isEmpty then Except.ok none else Except.ok (some files)

/-- A JSON property value of a GeoJSON feature. -/
inductive JVal where
  | str : String → JVal
  | num : Int → JVal
  | boolean : Bool → JVal
  | null : JVal
deriving DecidableEq

/-- Whether a JavaScript object (as an ordered key-value list) has a key. -/
def hasKey : List (String × JVal) → String → Bool
  | [], _ => false
  | p :: ps, k => p.1 == k || hasKey ps k

/-- Update an existing key in place, keeping its position. -/
def updateKey (k : String) (v : JVal) :
    List (String × JVal) → List (String × JVal)
  | [] => []
  | p :: ps => (if p.1 == k then (k, v) else p) :: updateKey k v ps

/-- JavaScript property assignment `obj[k] = v`: overwrite the key in place
if present, otherwise append it. -/
def setProp (ps : List (String × JVal)) (k : String) (v : JVal) :
    List (String × JVal) :=
  if hasKey ps k then updateKey k v ps else ps ++ [(k, v)]

/-- Property read `obj[k]`: value of the first matching key. -/
def getProp : List (String × JVal) → String → Option JVal
  | [], _ => none
  | p :: ps, k => if p.1 == k then some p.2 else getProp ps k

/-- One extracted GeoJSON feature: an opaque geometry and an optional
properties object (`feature.properties` may be null/undefined). -/
structure GeoFeature where
  geom : String
  properties : Option (List (String × JVal))
deriving DecidableEq

/-- The provenance tagging of `convertS57File`:
`if (!feature.properties) feature.properties = {};`
`feature.properties.layer = layer; feature.properties.chart = chartName;`. -/
def tagFeature (layerName chartName : String) (f : GeoFeature) : GeoFeature :=
  let ps := f.properties.getD []
  let tagged := setProp (setProp ps "layer" (JVal.str layerName)) "chart" (JVal.str chartName)
  { f with properties := some tagged }

/-- Outcome of running `ogr2ogr` for one layer: the utility either fails
(`execSync` throws, no intermediate file is produced) or writes the layer
file with the extracted features (possibly zero of them). -/
inductive ExtractResult where
  | fail : ExtractResult
  | ok : List GeoFeature → ExtractResult
deriving DecidableEq

/-- Whether an extraction produced at least one feature. -/
def nonEmptyOk : ExtractResult → Bool
  | ExtractResult.ok (_ :: _) => true
  | _ => false

/-- The features written by a successful extraction (empty on failure). -/
def featuresOf : ExtractResult → List GeoFeature
  | ExtractResult.ok fs => fs
  | ExtractResult.fail => []

/-- Working state of `convertS57File` while looping over the layers of one
chart: the intermediate GeoJSON files on disk inside the chart temporary
directory (keyed by layer name, which is in bijection with the file path
`<layer>.geojson` inside that directory) and the `geojsonFiles` accumulator
later handed to tippecanoe. -/
structure ConvState where
  files : List (String × List GeoFeature)
  geojsonFiles : List String
deriving DecidableEq

/-- One iteration of the layer loop of `convertS57File`: a failed extraction
is logged and skipped; a successful extraction with zero features has its
file deleted again (`fs.unlinkSync`) and is not queued; a successful
extraction with features is tagged with provenance, written back, and queued
for packaging. -/
def processLayer (chartName : String) (extract : String → ExtractResult)
    (st : ConvState) (layer : String) : ConvState :=
  match extract layer with
  | ExtractResult.fail => st
  | ExtractResult.ok features =>
    if features.isEmpty then st
    else
      { files := st.files ++ [(layer, features.map (tagFeature layer chartName))],
        geojsonFiles := st.geojsonFiles ++ [layer] }

/-- The layer loop of `convertS57File`, starting from an empty temporary
directory and an empty accumulator. -/
def convertLayers (chartName : String) (extract : String → ExtractResult)
    (layers : List String) : ConvState :=
  layers.foldl (processLayer chartName extract) ⟨[], []⟩

/-- The `finally` cleanup of `convertS57File`: unless `keepGeojson` was
requested, the whole chart temporary directory is removed. -/
def cleanupGeojson (keepGeojson : Bool) (st : ConvState) : ConvState :=
  if keepGeojson then st else { st with files := [] }

/-- The set of layer files handed to tippecanoe: packaging is skipped
entirely when no layer produced features, otherwise exactly the queued
files are passed. -/
def packagingInput (st : ConvState) : Option (List String) :=
  if st.geojsonFiles.isEmpty then none else some st.geojsonFiles

/-! Concrete data used by the witness and counterexample theorems. -/

/-- A small registry entry: one chart with a single tile stored at archive
coordinates `(zoom 1, column 0, row 0)`. -/
def wChart : ChartDB :=
  { name := "alpha", tiles := [((1, 0, 0), [7])], faulty := false }

/-- A second registry entry with no tiles. -/
def wChart2 : ChartDB :=
  { name := "beta", tiles := [], faulty := false }

/-- A chart whose archive stores a tile exactly at the row `(2^31 - 1) - 0`
that the specification formula predicts for a request at zoom 31, row 0. -/
def cexDB : ChartDB :=
  { name := "alpha", tiles := [((31, 0, 2147483647), [1])], faulty := false }

/-- A well-formed archive file for the registry loader. -/
def validArch : ArchiveFile :=
  { fileName := "alpha.mbtiles", opensAsDb := true, hasMetadataTable := true,
    hasTilesTable := true, metadata := [("name", "alpha")],
    tiles := [((0, 0, 0), [1])], queryFaulty := false }

/-- A corrupt archive file: it does not even open as a database. -/
def corruptArch : ArchiveFile :=
  { fileName := "bad.mbtiles", opensAsDb := false, hasMetadataTable := false,
    hasTilesTable := false, metadata := [], tiles := [], queryFaulty := false }

/-- A concrete extraction oracle: one layer with a feature, one empty layer,
everything else failing. -/
def wExtract : String → ExtractResult
  | "DEPARE" => ExtractResult.ok [{ geom := "poly", properties := some [] }]
  | "SOUNDG" => ExtractResult.ok []
  | _ => ExtractResult.fail

/-- A feature that already carries a property named `layer` before tagging. -/
def oldTaggedFeature : GeoFeature :=
  { geom := "pt", properties := some [("layer", JVal.str "OLD")] }

/-! Helper lemmas about the JavaScript arithmetic of the row transform. -/

theorem shl1Val_small (z : Nat) (hz : z ≤ 30) :
    shl1Val (JSNum.int (z : Int)) = (2 : Int) ^ z := by
  have hk : ((z : Int) % 4294967296).toNat = z := by omega
  have hmod : z % 32 = z := Nat.mod_eq_of_lt (by omega)
  have hpow : (2 : Nat) ^ z ≤ 2 ^ 30 := Nat.pow_le_pow_right (by norm_num) hz
  have hsh : (1 : Nat) <<< z = 2 ^ z := by
    rw [Nat.shiftLeft_eq, one_mul]
  have hlt : (2 : Nat) ^ z < 4294967296 := by omega
  simp only [shl1Val, jsToUint32, hk, hmod, hsh, Nat.mod_eq_of_lt hlt, toInt32]
  have hlt31 : (2 : Nat) ^ z < 2147483648 := by omega
  simp only [if_pos hlt31]
  push_cast
  rfl

theorem toInt32_le (n : Nat) (h : n < 4294967296) : toInt32 n ≤ 2147483647 := by
  simp only [toInt32]
  split <;> omega

theorem shl1Val_le (v : JSNum) : shl1Val v ≤ 2147483647 := by
  exact toInt32_le _ (Nat.mod_lt _ (by norm_num))

theorem shl1Val_le_pow (z : Nat) : shl1Val (JSNum.int (z : Int)) ≤ (2 : Int) ^ z := by
  rcases le_or_lt z 30 with hz | hz
  · rw [shl1Val_small z hz]
  · have h1 : shl1Val (JSNum.int (z : Int)) ≤ 2147483647 := shl1Val_le _
    have h2 : (2 : Int) ^ 31 ≤ (2 : Int) ^ z :=
      pow_le_pow_right₀ (by norm_num) (by omega)
    have h3 : (2147483648 : Int) = 2 ^ 31 := by norm_num
    omega

theorem tmsY_int (a b : Int) :
    tmsY (JSNum.int a) (JSNum.int b) = JSNum.int (shl1Val (JSNum.int a) - 1 - b) := rfl

theorem tmsY_nan_right (z : JSNum) : tmsY z JSNum.nan = JSNum.nan := rfl

/-! Helper lemmas about archive queries. -/

theorem queryTiles_nan (tiles : List ((Nat × Nat × Nat) × Payload))
    (z x r : JSNum)
    (h : z = JSNum.nan ∨ x = JSNum.nan ∨ r = JSNum.nan) :
    queryTiles tiles z x r = none := by
  unfold queryTiles
  rw [List.find?_eq_none.mpr]
  · rfl
  · intro e _
    rcases h with h | h | h <;> subst h <;> simp [jsMatchesNat]

theorem queryTiles_neg (tiles : List ((Nat × Nat × Nat) × Payload))
    (z x : JSNum) (r : Int) (hr : r < 0) :
    queryTiles tiles z x (JSNum.int r) = none := by
  unfold queryTiles
  rw [List.find?_eq_none.mpr]
  · rfl
  · intro e _
    simp only [Bool.and_eq_true, jsMatchesNat, beq_iff_eq, not_and]
    intro _ h3
    omega

/-- Status of the `handleChartTile` response when one of the three
coordinate parameters fails to parse (`parseInt` yields NaN), over a
registry whose resolved database does not fault at the storage layer. -/
theorem handleChartTile_nan_status (dbs : List ChartDB) (nm sz sx sy : String)
    (hhealthy : ∀ d ∈ dbs, d.faulty = false)
    (hnan : parseIntJS sz = JSNum.nan ∨ parseIntJS sx = JSNum.nan ∨
            parseIntJS sy = JSNum.nan) :
    (handleChartTile dbs nm sz sx sy).status = 404 := by
  cases hfind : dbs.find? (fun d => d.name == nm) with
  | none =>
    simp [handleChartTile, hfind, chartNotFoundResp]
  | some d =>
    have hd : d ∈ dbs := List.mem_of_find?_eq_some hfind
    have hf : d.faulty = false := hhealthy d hd
    have hq : queryTiles d.tiles (parseIntJS sz) (parseIntJS sx)
        (tmsY (parseIntJS sz) (parseIntJS sy)) = none := by
      apply queryTiles_nan
      rcases hnan with h | h | h
      · exact Or.inl h
      · exact Or.inr (Or.inl h)
      · exact Or.inr (Or.inr (by rw [h, tmsY_nan_right]))
    simp [handleChartTile, hfind, execTiles, hf, hq, tileNotFoundResp]

/-- C7: the row transform computed by the server, applied twice at the same
zoom, is the identity on every slippy row in range, and takes the concrete
values required at zoom 0 and zoom 3. -/
theorem C7_row_transform_involution (z y : Nat) (h : y < 2 ^ z) :
    tmsY (JSNum.int (z : Int)) (tmsY (JSNum.int (z : Int)) (JSNum.int (y : Int)))
      = JSNum.int (y : Int)
    ∧ tmsY (JSNum.int 0) (JSNum.int 0) = JSNum.int 0
    ∧ tmsY (JSNum.int 3) (JSNum.int 0) = JSNum.int 7
    ∧ tmsY (JSNum.int 3) (JSNum.int 7) = JSNum.int 0 := by
  refine ⟨?_, by decide, by decide, by decide⟩
  simp only [tmsY_int, JSNum.int.injEq]
  omega

/-- Witness for C7 at zoom 3, slippy row 5. -/
theorem C7_row_transform_involution_witness :
    tmsY (JSNum.int 3) (tmsY (JSNum.int 3) (JSNum.int 5)) = JSNum.int 5
    ∧ tmsY (JSNum.int 0) (JSNum.int 0) = JSNum.int 0
    ∧ tmsY (JSNum.int 3) (JSNum.int 0) = JSNum.int 7
    ∧ tmsY (JSNum.int 3) (JSNum.int 7) = JSNum.int 0 :=
  C7_row_transform_involution 3 5 (by norm_num)

/-- C2: on a non-empty registry, a legacy-form request produces the same
response (status, headers, body) as an explicit request for the first
registered chart, because the legacy route re-dispatches into the same
tile handler. -/
theorem C2_legacy_delegation (dbs : List ChartDB) (d : ChartDB)
    (rest : List ChartDB) (hdbs : dbs = d :: rest) (sz sx sy : String) :
    serve dbs (TileRequest.legacyReq sz sx sy)
      = serve dbs (TileRequest.explicitReq d.name sz sx sy) := by
  subst hdbs
  rfl

/-- Witness for C2 on a two-chart registry, charts registered in the order
`["alpha", "beta"]`. -/
theorem C2_legacy_delegation_witness :
    serve [wChart, wChart2] (TileRequest.legacyReq "1" "0" "0")
      = serve [wChart, wChart2] (TileRequest.explicitReq wChart.name "1" "0" "0") :=
  C2_legacy_delegation [wChart, wChart2] wChart [wChart2] rfl "1" "0" "0"

/-- C6: an unknown chart name yields the ChartNotFound response; a known
chart whose archive holds no tile at the queried coordinate yields the
TileNotFound response; the two responses differ, and both are 404, not a
server error. -/
theorem C6_notfound_outcomes (dbs : List ChartDB) (nm sz sx sy : String) :
    (dbs.find? (fun d => d.name == nm) = none →
      serve dbs (TileRequest.explicitReq nm sz sx sy) = chartNotFoundResp nm)
    ∧ (∀ d : ChartDB, dbs.find? (fun d => d.name == nm) = some d →
        d.faulty = false →
        queryTiles d.tiles (parseIntJS sz) (parseIntJS sx)
          (tmsY (parseIntJS sz) (parseIntJS sy)) = none →
        serve dbs (TileRequest.explicitReq nm sz sx sy) = tileNotFoundResp)
    ∧ chartNotFoundResp nm ≠ tileNotFoundResp
    ∧ (chartNotFoundResp nm).status = 404
    ∧ tileNotFoundResp.status = 404 := by
  refine ⟨?_, ?_, ?_, rfl, rfl⟩
  · intro h
    simp [serve, handleChartTile, h]
  · intro d hfind hf hq
    simp [serve, handleChartTile, hfind, execTiles, hf, hq]
  · intro h
    have hb := congrArg Response.body h
    simp only [chartNotFoundResp, tileNotFoundResp, Body.text.injEq] at hb
    have hl := congrArg String.length hb
    rw [String.length_append, String.length_append] at hl
    have e1 : ("Chart \x27" : String).length = 7 := by decide
    have e2 : ("\x27 not found" : String).length = 11 := by decide
    have e3 : ("Tile not found" : String).length = 14 := by decide
    omega

/-- Witness for C6: unknown chart `beta` vs. registered chart `alpha` at a
coordinate with no stored tile. -/
theorem C6_notfound_outcomes_witness :
    serve [wChart] (TileRequest.explicitReq "beta" "0" "0" "0")
      = chartNotFoundResp "beta"
    ∧ serve [wChart] (TileRequest.explicitReq "alpha" "0" "0" "0")
      = tileNotFoundResp
    ∧ chartNotFoundResp "beta" ≠ tileNotFoundResp :=
  ⟨(C6_notfound_outcomes [wChart] "beta" "0" "0" "0").1 (by decide),
   (C6_notfound_outcomes [wChart] "alpha" "0" "0" "0").2.1 wChart
     (by decide) rfl (by decide),
   (C6_notfound_outcomes [wChart] "beta" "0" "0" "0").2.2.1⟩

/-- C1 (amended): for a request whose zoom parses to `z ≤ 30` and whose row
parses to `y`, the resolved chart is queried at archive row
`(2^z - 1) - y` — the transform applied exactly once — and the response is
fully determined by the archive content at that transformed row. -/
theorem C1_row_conversion (dbs : List ChartDB) (nm sz sx sy : String)
    (d : ChartDB) (z y : Nat)
    (hz : parseIntJS sz = JSNum.int (z : Int)) (hzle : z ≤ 30)
    (hy : parseIntJS sy = JSNum.int (y : Int))
    (hfind : dbs.find? (fun e => e.name == nm) = some d) :
    serve dbs (TileRequest.explicitReq nm sz sx sy) =
      match execTiles d (JSNum.int (z : Int)) (parseIntJS sx)
          (JSNum.int ((2 : Int) ^ z - 1 - (y : Int))) with
      | Except.ok (some t) => tileFoundResp t
      | Except.ok none => tileNotFoundResp
      | Except.error _ => storageErrorResp := by
  have ht : tmsY (JSNum.int (z : Int)) (JSNum.int (y : Int))
      = JSNum.int ((2 : Int) ^ z - 1 - (y : Int)) := by
    rw [tmsY_int, shl1Val_small z hzle]
  simp only [serve, handleChartTile, hz, hy, hfind, ht]

/-- C1 counterexample: at zoom 31 the 32-bit JavaScript shift makes the
computed row diverge from `(2^z - 1) - y`.  The archive of `cexDB` stores a
tile exactly at the row `(2^31 - 1) - 0` that the claim predicts for the
request `(z, x, y) = (31, 0, 0)`, yet the server answers TileNotFound, so
the row it queried was not `(2^z - 1) - y`. -/
theorem C1_row_conversion_counterexample :
    serve [cexDB] (TileRequest.explicitReq "alpha" "31" "0" "0")
      = tileNotFoundResp
    ∧ queryTiles cexDB.tiles (JSNum.int 31) (JSNum.int 0)
        (JSNum.int ((2 : Int) ^ 31 - 1 - 0)) = some [1]
    ∧ tmsY (parseIntJS "31") (parseIntJS "0") = JSNum.int (-2147483649) := by
  refine ⟨by decide, ?_, by decide⟩
  have h31 : (2 : Int) ^ 31 - 1 - 0 = 2147483647 := by norm_num
  rw [h31]
  decide

/-- Witness for C1 at zoom 1. -/
theorem C1_row_conversion_witness :
    serve [wChart] (TileRequest.explicitReq "alpha" "1" "0" "0") =
      match execTiles wChart (JSNum.int 1) (parseIntJS "0")
          (JSNum.int ((2 : Int) ^ 1 - 1 - ((0 : Nat) : Int))) with
      | Except.ok (some t) => tileFoundResp t
      | Except.ok none => tileNotFoundResp
      | Except.error _ => storageErrorResp :=
  C1_row_conversion [wChart] "alpha" "1" "0" "0" wChart 1 0
    (by decide) (by norm_num) (by decide) (by decide)

/-- C9 (amended): a request with a coordinate field that has no parseable
integer prefix (`parseInt` yields NaN) receives a 404 client-error response
in both address forms, never a crash and never a 5xx, provided no registry
database faults at the storage layer. -/
theorem C9_malformed_fields (dbs : List ChartDB) (nm sz sx sy : String)
    (hhealthy : ∀ d ∈ dbs, d.faulty = false)
    (hnan : parseIntJS sz = JSNum.nan ∨ parseIntJS sx = JSNum.nan ∨
            parseIntJS sy = JSNum.nan) :
    (serve dbs (TileRequest.explicitReq nm sz sx sy)).status = 404
    ∧ (serve dbs (TileRequest.legacyReq sz sx sy)).status = 404 := by
  constructor
  · exact handleChartTile_nan_status dbs nm sz sx sy hhealthy hnan
  · cases dbs with
    | nil => rfl
    | cons d rest =>
      exact handleChartTile_nan_status (d :: rest) d.name sz sx sy hhealthy hnan

/-- C9 counterexample: the path segment `1abc` is not a valid non-negative
integer, yet `parseInt` reads its `1` prefix and the server happily serves
the stored tile with a 200 response instead of a client error. -/
theorem C9_malformed_fields_counterexample :
    serve [wChart] (TileRequest.explicitReq "alpha" "1" "0" "1abc")
      = tileFoundResp [7]
    ∧ (serve [wChart] (TileRequest.explicitReq "alpha" "1" "0" "1abc")).status
      = 200 := by
  constructor <;> decide

/-- Witness for C9 with an entirely unparseable row field. -/
theorem C9_malformed_fields_witness :
    (serve [wChart] (TileRequest.explicitReq "alpha" "1" "0" "abc")).status = 404
    ∧ (serve [wChart] (TileRequest.legacyReq "1" "0" "abc")).status = 404 :=
  C9_malformed_fields [wChart] "alpha" "1" "0" "abc" (by decide)
    (Or.inr (Or.inr (by decide)))

/-- C10: a request on a registered, healthy chart with row `y ≥ 2^z` always
produces a negative computed archive row, the archive query matches nothing,
and the server answers TileNotFound — a 404, not a thrown error and not a
5xx. -/
theorem C10_out_of_range_row (dbs : List ChartDB) (nm sz sx sy : String)
    (d : ChartDB) (z y : Nat)
    (hz : parseIntJS sz = JSNum.int (z : Int))
    (hy : parseIntJS sy = JSNum.int (y : Int))
    (hrange : 2 ^ z ≤ y)
    (hfind : dbs.find? (fun e => e.name == nm) = some d)
    (hfaulty : d.faulty = false) :
    (∃ r : Int, r < 0 ∧ tmsY (JSNum.int (z : Int)) (JSNum.int (y : Int))
        = JSNum.int r)
    ∧ serve dbs (TileRequest.explicitReq nm sz sx sy) = tileNotFoundResp := by
  have hneg : shl1Val (JSNum.int (z : Int)) - 1 - (y : Int) < 0 := by
    have h1 : shl1Val (JSNum.int (z : Int)) ≤ (2 : Int) ^ z := shl1Val_le_pow z
    have h2 : (2 : Int) ^ z ≤ (y : Int) := by exact_mod_cast hrange
    omega
  refine ⟨⟨shl1Val (JSNum.int (z : Int)) - 1 - (y : Int), hneg, tmsY_int _ _⟩, ?_⟩
  have hq : queryTiles d.tiles (parseIntJS sz) (parseIntJS sx)
      (tmsY (parseIntJS sz) (parseIntJS sy)) = none := by
    rw [hz, hy, tmsY_int]
    exact queryTiles_neg _ _ _ _ hneg
  simp [serve, handleChartTile, hfind, execTiles, hfaulty, hq]

/-- Witness for C10 at zoom 1, out-of-range row 2. -/
theorem C10_out_of_range_row_witness :
    (∃ r : Int, r < 0 ∧ tmsY (JSNum.int 1) (JSNum.int 2) = JSNum.int r)
    ∧ serve [wChart] (TileRequest.explicitReq "alpha" "1" "0" "2")
      = tileNotFoundResp :=
  C10_out_of_range_row [wChart] "alpha" "1" "0" "2" wChart 1 2
    (by decide) (by decide) (by norm_num) (by decide) rfl

/-! Helper lemmas about JavaScript property assignment. -/

theorem getProp_updateKey_self (k : String) (v : JVal) :
    ∀ ps : List (String × JVal), hasKey ps k = true →
      getProp (updateKey k v ps) k = some v := by
  intro ps
  induction ps with
  | nil => intro h; simp [hasKey] at h
  | cons p ps ih =>
    intro h
    simp only [hasKey, Bool.or_eq_true] at h
    cases hpk : (p.1 == k) with
    | true =>
      simp [updateKey, getProp, hpk]
    | false =>
      have htail : hasKey ps k = true := by
        rcases h with h | h
        · rw [hpk] at h; exact absurd h (by simp)
        · exact h
      simp [updateKey, getProp, hpk, ih htail]

theorem getProp_updateKey_ne (k k' : String) (v : JVal) (hne : k' ≠ k) :
    ∀ ps : List (String × JVal),
      getProp (updateKey k v ps) k' = getProp ps k' := by
  intro ps
  induction ps with
  | nil => rfl
  | cons p ps ih =>
    cases hpk : (p.1 == k) with
    | true =>
      have hp1 : p.1 = k := by simpa [beq_iff_eq] using hpk
      have hkk : (k == k') = false := by
        simp [beq_iff_eq]
        exact fun h => hne h.symm
      have hpk' : (p.1 == k') = false := by
        rw [hp1]; exact hkk
      simp [updateKey, getProp, hpk, hkk, hpk', ih]
    | false =>
      cases hpk' : (p.1 == k') with
      | true => simp [updateKey, getProp, hpk, hpk']
      | false => simp [updateKey, getProp, hpk, hpk', ih]

theorem getProp_append_self (k : String) (v : JVal) :
    ∀ ps : List (String × JVal), hasKey ps k = false →
      getProp (ps ++ [(k, v)]) k = some v := by
  intro ps
  induction ps with
  | nil => intro _; simp [getProp]
  | cons p ps ih =>
    intro h
    simp only [hasKey, Bool.or_eq_false_iff] at h
    simp [getProp, h.1, ih h.2]

theorem getProp_append_ne (k k' : String) (v : JVal) (hne : k' ≠ k) :
    ∀ ps : List (String × JVal),
      getProp (ps ++ [(k, v)]) k' = getProp ps k' := by
  intro ps
  induction ps with
  | nil =>
    have hkk : (k == k') = false := by
      simp [beq_iff_eq]
      exact fun h => hne h.symm
    simp [getProp, hkk]
  | cons p ps ih =>
    cases hpk' : (p.1 == k') with
    | true => simp [getProp, hpk']
    | false => simp [getProp, hpk', ih]

theorem getProp_setProp_self (ps : List (String × JVal)) (k : String) (v : JVal) :
    getProp (setProp ps k v) k = some v := by
  unfold setProp
  cases h : hasKey ps k with
  | true => simp [getProp_updateKey_self k v ps h]
  | false => simp [getProp_append_self k v ps h]

theorem getProp_setProp_ne (ps : List (String × JVal)) (k k' : String) (v : JVal)
    (hne : k' ≠ k) :
    getProp (setProp ps k v) k' = getProp ps k' := by
  unfold setProp
  cases h : hasKey ps k with
  | true => simp [getProp_updateKey_ne k k' v hne ps]
  | false => simp [getProp_append_ne k k' v hne ps]

/-- C5 (amended): tagging sets the `layer` and `chart` provenance
properties and leaves everything else about the feature unchanged — every
pre-existing property under any other key keeps its value, and the geometry
is untouched; pre-existing properties named `layer` or `chart` are
overwritten. -/
theorem C5_provenance_tagging (layerName chartName : String) (f : GeoFeature)
    (k : String) (hk1 : k ≠ "layer") (hk2 : k ≠ "chart") :
    getProp ((tagFeature layerName chartName f).properties.getD []) k
      = getProp (f.properties.getD []) k
    ∧ getProp ((tagFeature layerName chartName f).properties.getD []) "layer"
      = some (JVal.str layerName)
    ∧ getProp ((tagFeature layerName chartName f).properties.getD []) "chart"
      = some (JVal.str chartName)
    ∧ (tagFeature layerName chartName f).geom = f.geom := by
  refine ⟨?_, ?_, ?_, rfl⟩
  · show getProp (setProp (setProp (f.properties.getD []) "layer"
        (JVal.str layerName)) "chart" (JVal.str chartName)) k
      = getProp (f.properties.getD []) k
    rw [getProp_setProp_ne _ _ _ _ hk2, getProp_setProp_ne _ _ _ _ hk1]
  · show getProp (setProp (setProp (f.properties.getD []) "layer"
        (JVal.str layerName)) "chart" (JVal.str chartName)) "layer"
      = some (JVal.str layerName)
    rw [getProp_setProp_ne _ _ _ _ (by decide : "layer" ≠ "chart"),
        getProp_setProp_self]
  · show getProp (setProp (setProp (f.properties.getD []) "layer"
        (JVal.str layerName)) "chart" (JVal.str chartName)) "chart"
      = some (JVal.str chartName)
    rw [getProp_setProp_self]

/-- C5 counterexample: a feature that already carries a property named
`layer` has that property overwritten by the provenance tagging, so the
tagging is not purely additive. -/
theorem C5_provenance_tagging_counterexample :
    getProp (oldTaggedFeature.properties.getD []) "layer"
      = some (JVal.str "OLD")
    ∧ getProp ((tagFeature "DEPARE" "US5TX51M" oldTaggedFeature).properties.getD [])
        "layer" = some (JVal.str "DEPARE")
    ∧ JVal.str "DEPARE" ≠ JVal.str "OLD" := by
  refine ⟨by decide, by decide, by decide⟩

/-- Witness for C5 at a property key that is neither `layer` nor `chart`. -/
theorem C5_provenance_tagging_witness :
    getProp ((tagFeature "DEPARE" "US5TX51M" oldTaggedFeature).properties.getD [])
        "DRVAL1"
      = getProp (oldTaggedFeature.properties.getD []) "DRVAL1"
    ∧ getProp ((tagFeature "DEPARE" "US5TX51M" oldTaggedFeature).properties.getD [])
        "layer" = some (JVal.str "DEPARE")
    ∧ getProp ((tagFeature "DEPARE" "US5TX51M" oldTaggedFeature).properties.getD [])
        "chart" = some (JVal.str "US5TX51M")
    ∧ (tagFeature "DEPARE" "US5TX51M" oldTaggedFeature).geom
      = oldTaggedFeature.geom :=
  C5_provenance_tagging "DEPARE" "US5TX51M" oldTaggedFeature "DRVAL1"
    (by decide) (by decide)

/-! Helper lemmas about the layer loop of the conversion orchestrator. -/

theorem convert_fold_geojson (chartName : String)
    (extract : String → ExtractResult) :
    ∀ (layers : List String) (st : ConvState),
      (layers.foldl (processLayer chartName extract) st).geojsonFiles
        = st.geojsonFiles ++ layers.filter (fun l => nonEmptyOk (extract l)) := by
  intro layers
  induction layers with
  | nil => intro st; simp
  | cons l ls ih =>
    intro st
    rw [List.foldl_cons, List.filter_cons]
    cases h : extract l with
    | fail => simp [processLayer, h, nonEmptyOk, ih]
    | ok fs =>
      cases fs with
      | nil => simp [processLayer, h, nonEmptyOk, ih]
      | cons f fs2 => simp [processLayer, h, nonEmptyOk, ih]

theorem convert_fold_files (chartName : String)
    (extract : String → ExtractResult) :
    ∀ (layers : List String) (st : ConvState),
      (layers.foldl (processLayer chartName extract) st).files
        = st.files ++ (layers.filter (fun l => nonEmptyOk (extract l))).map
            (fun l => (l, (featuresOf (extract l)).map (tagFeature l chartName))) := by
  intro layers
  induction layers with
  | nil => intro st; simp
  | cons l ls ih =>
    intro st
    rw [List.foldl_cons, List.filter_cons]
    cases h : extract l with
    | fail => simp [processLayer, h, nonEmptyOk, ih]
    | ok fs =>
      cases fs with
      | nil => simp [processLayer, h, nonEmptyOk, ih]
      | cons f fs2 => simp [processLayer, h, nonEmptyOk, featuresOf, ih]

/-- C4: a layer whose extraction yields zero features is excluded from the
set handed to packaging and its intermediate file is gone from disk (both
immediately after the loop and after the final cleanup, whether or not
`keepGeojson` was requested), while every layer extracting at least one
feature is included in the packaging set. -/
theorem C4_empty_layer_pruning (chartName : String)
    (extract : String → ExtractResult) (layers : List String)
    (keepGeojson : Bool) (l : String) (hl : l ∈ layers) :
    (extract l = ExtractResult.ok [] →
       l ∉ (convertLayers chartName extract layers).geojsonFiles
       ∧ (cleanupGeojson keepGeojson
            (convertLayers chartName extract layers)).files.find?
              (fun p => p.1 == l) = none
       ∧ (∀ packed, packagingInput (convertLayers chartName extract layers)
            = some packed → l ∉ packed))
    ∧ (∀ f fs, extract l = ExtractResult.ok (f :: fs) →
         l ∈ (convertLayers chartName extract layers).geojsonFiles) := by
  constructor
  · intro hempty
    have hgeo : (convertLayers chartName extract layers).geojsonFiles
        = layers.filter (fun l => nonEmptyOk (extract l)) := by
      unfold convertLayers
      rw [convert_fold_geojson]
      rfl
    have hmem : l ∉ (convertLayers chartName extract layers).geojsonFiles := by
      rw [hgeo]
      intro hcontra
      have := (List.mem_filter.mp hcontra).2
      rw [hempty] at this
      simp [nonEmptyOk] at this
    refine ⟨hmem, ?_, ?_⟩
    · cases keepGeojson with
      | false => simp [cleanupGeojson]
      | true =>
        simp only [cleanupGeojson, if_pos]
        unfold convertLayers
        rw [convert_fold_files]
        apply List.find?_eq_none.mpr
        intro p hp
        simp only [List.nil_append, List.mem_map] at hp
        obtain ⟨l2, hl2, rfl⟩ := hp
        have hne : l2 ≠ l := by
          intro hcontra
          subst hcontra
          have := (List.mem_filter.mp hl2).2
          rw [hempty] at this
          simp [nonEmptyOk] at this
        simp [hne]
    · intro packed hpacked
      unfold packagingInput at hpacked
      by_cases hemp : (convertLayers chartName extract layers).geojsonFiles.isEmpty
      · simp [hemp] at hpacked
      · simp [hemp] at hpacked
        rw [← hpacked]
        exact hmem
  · intro f fs hfeat
    have hgeo : (convertLayers chartName extract layers).geojsonFiles
        = layers.filter (fun l => nonEmptyOk (extract l)) := by
      unfold convertLayers
      rw [convert_fold_geojson]
      rfl
    rw [hgeo]
    exact List.mem_filter.mpr ⟨hl, by simp [hfeat, nonEmptyOk]⟩

/-- Witness for C4 on two layers, one of which extracts zero features. -/
theorem C4_empty_layer_pruning_witness :
    "SOUNDG" ∉ (convertLayers "US5TX51M" wExtract ["DEPARE", "SOUNDG"]).geojsonFiles
    ∧ (cleanupGeojson true
         (convertLayers "US5TX51M" wExtract ["DEPARE", "SOUNDG"])).files.find?
           (fun p => p.1 == "SOUNDG") = none
    ∧ "DEPARE" ∈ (convertLayers "US5TX51M" wExtract ["DEPARE", "SOUNDG"]).geojsonFiles := by
  have h1 := C4_empty_layer_pruning "US5TX51M" wExtract ["DEPARE", "SOUNDG"]
    true "SOUNDG" (by decide)
  have h2 := C4_empty_layer_pruning "US5TX51M" wExtract ["DEPARE", "SOUNDG"]
    true "DEPARE" (by decide)
  exact ⟨(h1.1 rfl).1, (h1.1 rfl).2.1,
         h2.2 { geom := "poly", properties := some [] } [] rfl⟩

/-- C3: a registry built from a directory holding one valid and one corrupt
archive (in either order) loads without propagating an error and exposes
exactly the valid chart. -/
theorem C3_chart_isolation (v c : ArchiveFile)
    (hvn : hasSuffix v.fileName ".mbtiles" = true)
    (hcn : hasSuffix c.fileName ".mbtiles" = true)
    (hv : v.opensAsDb = true ∧ v.hasMetadataTable = true ∧ v.hasTilesTable = true)
    (hc : c.opensAsDb = false ∨ c.hasMetadataTable = false ∨ c.hasTilesTable = false) :
    (loadMBTilesDatabases [v, c]).map ChartDB.name = [chartNameOf v.fileName]
    ∧ (loadMBTilesDatabases [c, v]).map ChartDB.name = [chartNameOf v.fileName] := by
  have hov : openAndValidate v
      = Except.ok { name := chartNameOf v.fileName, tiles := v.tiles,
                    faulty := v.queryFaulty } := by
    unfold openAndValidate
    rw [hv.1, hv.2.1, hv.2.2]
    rfl
  have hoc : ∃ e, openAndValidate c = Except.error e := by
    unfold openAndValidate
    rcases hc with h | h | h
    · rw [h]; exact ⟨_, rfl⟩
    · cases hcd : c.opensAsDb
      · exact ⟨_, rfl⟩
      · rw [h]; exact ⟨_, rfl⟩
    · cases hcd : c.opensAsDb
      · exact ⟨_, rfl⟩
      · rw [h]; simp
  obtain ⟨e, hoc⟩ := hoc
  constructor
  · simp [loadMBTilesDatabases, List.filter, hvn, hcn, hov, hoc]
  · simp [loadMBTilesDatabases, List.filter, hvn, hcn, hov, hoc]

/-- Witness for C3 with a concrete valid and corrupt archive pair. -/
theorem C3_chart_isolation_witness :
    (loadMBTilesDatabases [validArch, corruptArch]).map ChartDB.name
      = [chartNameOf validArch.fileName]
    ∧ (loadMBTilesDatabases [corruptArch, validArch]).map ChartDB.name
      = [chartNameOf validArch.fileName] :=
  C3_chart_isolation validArch corruptArch (by decide) (by decide)
    ⟨rfl, rfl, rfl⟩ (Or.inl rfl)

/-- C8 (amended): discovery over a directory with no eligible `.000` file
returns the empty list and the batch finishes cleanly instead of throwing;
but discovery over an absent directory propagates the `readdirSync` error. -/
theorem C8_discovery_empty (entries : List String)
    (hnone : entries.filter (fun f => hasSuffix f ".000") = []) :
    discoverSources (some entries) = Except.ok []
    ∧ mainDiscovery (some entries) = Except.ok none := by
  constructor
  · simp [discoverSources, readdirSync, hnone]
  · simp [mainDiscovery, discoverSources, readdirSync, hnone]

/-- C8 counterexample: for an absent input directory, discovery does not
return an empty result — the uncaught `readdirSync` error propagates and
crashes the batch. -/
theorem C8_discovery_counterexample :
    discoverSources none = Except.error "ENOENT"
    ∧ mainDiscovery none = Except.error "ENOENT"
    ∧ discoverSources none ≠ Except.ok [] := by
  refine ⟨rfl, rfl, by simp [discoverSources, readdirSync]⟩

/-- Witness for C8 on a directory with no eligible source file. -/
theorem C8_discovery_empty_witness :
    discoverSources (some ["readme.txt"]) = Except.ok []
    ∧ mainDiscovery (some ["readme.txt"]) = Except.ok none :=
  C8_discovery_empty ["readme.txt"] (by decide)
